import Mathlib

/-!
Verification development for the NCONotes repository (src/nconotes/models.py,
src/nconotes/widgets.py, src/nconotes/main.py).

Modelling conventions, used throughout:
* Python dictionaries that serve as JSON objects are modelled as insertion-ordered
  association lists `List (String × JValue)`; JSON scalar values are modelled by the
  inductive `JValue` (Python `str` as `jstr`, Python `int` as `jint`, Python `float`
  as `jfloat` over `ℚ` — none of the claims depend on binary floating-point rounding,
  and the float literals of the source, such as `0.1` and `200.0`, are modelled as the
  exact rationals they denote).
* A raised Python exception (`KeyError` from a missing dictionary key,
  `FileNotFoundError` from `open`) is modelled as `Option.none` of the operation.
* Qt widget pixel sizes are C integers, modelled as `ℤ`; Python's `int(...)`
  truncation toward zero on a float is `pytrunc`.
* The on-disk tree under the notebooks root directory is modelled by `FS`:
  directories and files are keyed by their path segments (`List String`),
  files hold already-parsed JSON (`FileData`).
-/

namespace NCONotes

/-- A JSON scalar value as written/read by `json.dump`/`json.load` in the source. -/
inductive JValue where
  | jstr (s : String)
  | jint (n : ℤ)
  | jfloat (q : ℚ)
deriving DecidableEq

/-- Ordered association-list lookup: Python `d[key]` returning `some` value, or
`none` for a `KeyError`. -/
def alookup {κ α : Type} [DecidableEq κ] : List (κ × α) → κ → Option α
  | [], _ => none
  | (k, v) :: rest, key => if k = key then some v else alookup rest key

/-- Ordered association-list store: Python `d[key] = v` (replace in place if the
key is present, append otherwise). -/
def aset {κ α : Type} [DecidableEq κ] : List (κ × α) → κ → α → List (κ × α)
  | [], key, v => [(key, v)]
  | (k, w) :: rest, key, v =>
      if k = key then (key, v) :: rest else (k, w) :: aset rest key v

theorem alookup_aset {κ α : Type} [DecidableEq κ] (l : List (κ × α)) (p q : κ) (v : α) :
    alookup (aset l p v) q = if p = q then some v else alookup l q := by
  induction l with
  | nil => by_cases h : p = q <;> simp [alookup, aset, h]
  | cons kv rest ih =>
      obtain ⟨k, w⟩ := kv
      by_cases hk : k = p
      · subst hk
        by_cases hq : k = q <;> simp [alookup, aset, hq]
      · by_cases hq : k = q
        · subst hq
          have hpq : ¬ p = k := fun h => hk h.symm
          simp [alookup, aset, hk, hpq]
        · simp [alookup, aset, hk, hq, ih]

/-- Python truncation toward zero, `int(q)` on a float value modelled as `ℚ`. -/
def pytrunc (q : ℚ) : ℤ := if 0 ≤ q then ⌊q⌋ else -⌊-q⌋

theorem le_pytrunc_of_le {z : ℤ} {q : ℚ} (hz : 0 ≤ z) (h : (z : ℚ) ≤ q) :
    z ≤ pytrunc q := by
  have hq : 0 ≤ q := le_trans (by exact_mod_cast hz) h
  unfold pytrunc
  rw [if_pos hq]
  exact Int.le_floor.mpr h

/-! ## models.py -/

/-- Model of `models.TextBoxData`: data model for a text box on the canvas.
The source leaves the field types dynamic; the valid values are an opaque markup
string `content`, float coordinates `x`, `y` and pixel sizes `width`, `height`,
modelled uniformly as rationals. -/
structure TextBoxData where
  content : String
  x : ℚ
  y : ℚ
  width : ℚ
  height : ℚ
deriving DecidableEq

/-- Model of `models.TextBoxData.to_dict`: serialize to dictionary for JSON storage,
keys in the source's insertion order. -/
def TextBoxData.to_dict (t : TextBoxData) : List (String × JValue) :=
  [("type", .jstr "text"),
   ("x", .jfloat t.x),
   ("y", .jfloat t.y),
   ("width", .jfloat t.width),
   ("height", .jfloat t.height),
   ("content", .jstr t.content)]

/-- Model of `models.TextBoxData.from_dict`: deserialize from dictionary.  A missing key is
a Python `KeyError`, modelled as `none`; a value of the wrong JSON kind cannot
inhabit the typed fields and is likewise modelled as `none`. -/
def TextBoxData.from_dict (data : List (String × JValue)) : Option TextBoxData :=
  match alookup data "content", alookup data "x", alookup data "y",
        alookup data "width", alookup data "height" with
  | some (.jstr c), some (.jfloat x), some (.jfloat y),
    some (.jfloat w), some (.jfloat h) => some ⟨c, x, y, w, h⟩
  | _, _, _, _, _ => none

/-- Model of `models.ImageData`: data model for an image on the canvas.  `image_id` is the
opaque identifier, `x`, `y`, `scale` are floats, `width`, `height` are the natural
pixel dimensions (Python ints). -/
structure ImageData where
  image_id : String
  x : ℚ
  y : ℚ
  scale : ℚ
  width : ℤ
  height : ℤ
deriving DecidableEq

/-- Model of `models.ImageData.to_dict`: serialize to dictionary for JSON storage,
keys in the source's insertion order. -/
def ImageData.to_dict (i : ImageData) : List (String × JValue) :=
  [("type", .jstr "image"),
   ("image_id", .jstr i.image_id),
   ("x", .jfloat i.x),
   ("y", .jfloat i.y),
   ("scale", .jfloat i.scale),
   ("width", .jint i.width),
   ("height", .jint i.height)]

/-- Model of `models.ImageData.from_dict`: deserialize from dictionary (same failure
modelling as `TextBoxData.from_dict`). -/
def ImageData.from_dict (data : List (String × JValue)) : Option ImageData :=
  match alookup data "image_id", alookup data "x", alookup data "y",
        alookup data "scale", alookup data "width", alookup data "height" with
  | some (.jstr id), some (.jfloat x), some (.jfloat y),
    some (.jfloat s), some (.jint w), some (.jint h) => some ⟨id, x, y, s, w, h⟩
  | _, _, _, _, _, _ => none

/-! ## widgets.py -/

namespace Widgets

/-- Model of `widgets.ResizableTextEdit`: canvas text editor.  Its observable state is the
item position (`pos()`, floats), the pixel size of its `text_area` (Qt stores
integers; both the constructor and `resize_widget` pass sizes through `int(...)`)
and the opaque markup `content` held by the inner editor (`get_content` /
`set_content` store it verbatim; the initial markup of an empty editor is
modelled as the empty string). -/
structure ResizableTextEdit where
  x : ℚ
  y : ℚ
  width : ℤ
  height : ℤ
  content : String
deriving DecidableEq

/-- Model of `widgets.ResizableTextEdit.__init__`: with an explicit `size` the text area is
created at `(int(size[0]), int(size[1]))`; without one it defaults to `300 × 200`. -/
def ResizableTextEdit.create (pos : ℚ × ℚ) (size : Option (ℚ × ℚ)) : ResizableTextEdit :=
  match size with
  | some s => ⟨pos.1, pos.2, pytrunc s.1, pytrunc s.2, ""⟩
  | none => ⟨pos.1, pos.2, 300, 200, ""⟩

/-- Model of `widgets.ResizableTextEdit.mouseMoveEvent`, resize branch: one completed
resize drag.  `resize_start_size` is the text-area size captured at the mouse
press and `delta` the cumulative scene-position delta of the drag; the new size
is `max(100, start.width + delta.x)` by `max(50, start.height + delta.y)`,
then truncated by `resize_widget`'s `int(...)`. -/
def ResizableTextEdit.resizeBy (w : ResizableTextEdit) (delta : ℚ × ℚ) : ResizableTextEdit :=
  let new_width := max 100 ((w.width : ℚ) + delta.1)
  let new_height := max 50 ((w.height : ℚ) + delta.2)
  { w with width := pytrunc new_width, height := pytrunc new_height }

/-- Model of `widgets.ResizableTextEdit.to_dict`: build a `TextBoxData` from the current
state and serialize it. -/
def ResizableTextEdit.to_dict (w : ResizableTextEdit) : List (String × JValue) :=
  (TextBoxData.mk w.content w.x w.y (w.width : ℚ) (w.height : ℚ)).to_dict

/-- Model of `widgets.ResizableTextEdit.from_dict`: decode a `TextBoxData` and rebuild the
widget at its position and size, restoring the content. -/
def ResizableTextEdit.from_dict (data : List (String × JValue)) : Option ResizableTextEdit :=
  match TextBoxData.from_dict data with
  | some t => some { ResizableTextEdit.create (t.x, t.y) (some (t.width, t.height)) with
                       content := t.content }
  | none => none

end Widgets

/-! ## main.py: canvas items -/

namespace Main

/-- Model of `main.ResizableTextEdit.border_width` (the gray border around the inner text
editor; the container is the text editor plus this border on every side). -/
def border_width : ℤ := 3

/-- Model of `main.ResizableTextEdit`: canvas text editor of the application window.  Its
container has a fixed integer pixel size; the inner `text_edit` fills the
container minus the layout margins of `border_width` on each side. -/
structure ResizableTextEdit where
  x : ℚ
  y : ℚ
  containerWidth : ℤ
  containerHeight : ℤ
  content : String
deriving DecidableEq

/-- Model of `main.ResizableTextEdit.__init__`: with an explicit `size` the container is
fixed at `int(size[0]) + 2*border_width` by `int(size[1]) + 2*border_width`;
without one it defaults to `306 × 206` (300 × 200 plus borders). -/
def ResizableTextEdit.create (pos : ℚ × ℚ) (size : Option (ℚ × ℚ)) : ResizableTextEdit :=
  match size with
  | some s => ⟨pos.1, pos.2, pytrunc s.1 + 2 * border_width, pytrunc s.2 + 2 * border_width, ""⟩
  | none => ⟨pos.1, pos.2, 306, 206, ""⟩

/-- Model of `self.text_edit.width()`: the inner editor's width, the container width minus
the layout margins of `border_width` on each side. -/
def ResizableTextEdit.textWidth (r : ResizableTextEdit) : ℤ :=
  r.containerWidth - 2 * border_width

/-- Model of `self.text_edit.height()`: likewise for the height. -/
def ResizableTextEdit.textHeight (r : ResizableTextEdit) : ℤ :=
  r.containerHeight - 2 * border_width

/-- Model of `main.ResizableTextEdit.to_dict`: serialize position, inner editor size and
content. -/
def ResizableTextEdit.to_dict (r : ResizableTextEdit) : List (String × JValue) :=
  [("type", .jstr "text"),
   ("x", .jfloat r.x),
   ("y", .jfloat r.y),
   ("width", .jfloat (r.textWidth : ℚ)),
   ("height", .jfloat (r.textHeight : ℚ)),
   ("content", .jstr r.content)]

/-- A numeric JSON value read where Python would accept either an int or a float
(e.g. `QPointF(data['x'], data['y'])`, `int(size[0])`). -/
def jnum : Option JValue → Option ℚ
  | some (.jint n) => some (n : ℚ)
  | some (.jfloat q) => some q
  | _ => none

/-- A string JSON value (e.g. the argument of `setHtml`). -/
def jstring : Option JValue → Option String
  | some (.jstr s) => some s
  | _ => none

/-- Model of `main.ResizableTextEdit.from_dict`: read `x`, `y`, `width`, `height`,
`content`, rebuild the widget and restore the markup. -/
def ResizableTextEdit.from_dict (data : List (String × JValue)) : Option ResizableTextEdit :=
  match jnum (alookup data "x"), jnum (alookup data "y"),
        jnum (alookup data "width"), jnum (alookup data "height"),
        jstring (alookup data "content") with
  | some x, some y, some w, some h, some c =>
      some { ResizableTextEdit.create (x, y) (some (w, h)) with content := c }
  | _, _, _, _, _ => none

/-- The lowercase hex encoding of one byte, as produced by Python's
`bytes.hex()` (bytes are below 256). -/
def byteHex (b : ℕ) : String :=
  String.mk [Nat.digitChar (b / 16 % 16), Nat.digitChar (b % 16)]

/-- Model of `bytes.hex()` over a byte sequence. -/
def bytesHex (bs : List ℕ) : String :=
  String.join (bs.map byteHex)

/-- Model of `main.ResizableImage`: movable, scalable canvas image.  Its observable state
is the pixmap (natural pixel dimensions and the raw RGBA bytes exposed by
`pixmap.toImage().bits()`), the item position and `current_scale`
(initialized to `1.0` by the constructor). -/
structure ResizableImage where
  pixWidth : ℕ
  pixHeight : ℕ
  pixBytes : List ℕ
  x : ℚ
  y : ℚ
  current_scale : ℚ
deriving DecidableEq

/-- Model of `main.ResizableImage.mouseMoveEvent`, resize branch: one completed resize
drag from `resize_start_scale` (the scale captured at the mouse press), with
cumulative scene delta `(dx, dy)`:
`new_scale = max(0.1, resize_start_scale * (1.0 + (dx + dy) / 200.0))`. -/
def clampedScale (resize_start_scale dx dy : ℚ) : ℚ :=
  let scale_change := 1 + (dx + dy) / 200
  max (1 / 10) (resize_start_scale * scale_change)

/-- The `current_scale` after a sequence of completed resize drags. -/
def applyResizes (s : ℚ) (ds : List (ℚ × ℚ)) : ℚ :=
  ds.foldl (fun a d => clampedScale a d.1 d.2) s

/-- Model of `main.ResizableImage.to_dict`: serialize position, scale, pixmap dimensions
and — per the source's own note a non-production shortcut — the raw pixel bytes
(`asstring(width * height * 4)`) hex-encoded inline under the key `data`.
No `image_id` is emitted. -/
def ResizableImage.to_dict (ri : ResizableImage) : List (String × JValue) :=
  let byte_array := ri.pixBytes.take (ri.pixWidth * ri.pixHeight * 4)
  [("type", .jstr "image"),
   ("x", .jfloat ri.x),
   ("y", .jfloat ri.y),
   ("scale", .jfloat ri.current_scale),
   ("width", .jint (ri.pixWidth : ℤ)),
   ("height", .jint (ri.pixHeight : ℤ)),
   ("data", .jstr (if byte_array.isEmpty then "" else bytesHex byte_array))]

end Main

/-- One entry of the `pages` list of `notebook.json`: `{"id": ..., "name": ...}`. -/
structure PageEntry where
  id : String
  name : String
deriving DecidableEq

/-- The parsed content of a `notebook.json` metadata file:
`{"name": string, "pages": [...]}`. -/
structure NotebookMeta where
  name : String
  pages : List PageEntry
deriving DecidableEq

/-- The parsed content of a page file: `{"items": [...]}` where each item is a
serialized record. -/
structure PageFile where
  items : List (List (String × JValue))
deriving DecidableEq

/-- A parsed JSON file in the notebooks tree. -/
inductive FileData where
  | meta (m : NotebookMeta)
  | page (p : PageFile)
deriving DecidableEq

/-- The on-disk tree under the notebooks root directory (`~/MyNotebooks`):
existing directories and parsed JSON files, both keyed by path segments
relative to the root. -/
structure FS where
  dirs : List (List String)
  files : List (List String × FileData)
deriving DecidableEq

/-- Model of `Path.mkdir(exist_ok=True)`: create the directory if absent, never raise. -/
def mkdirExistOk (fs : FS) (p : List String) : FS :=
  if p ∈ fs.dirs then fs else { fs with dirs := fs.dirs ++ [p] }

/-- Model of `open(path, "w")` followed by a completed `json.dump`: (over)write the file. -/
def writeFile (fs : FS) (p : List String) (d : FileData) : FS :=
  { fs with files := aset fs.files p d }

/-- Read a parsed file, `none` when the path does not exist. -/
def jGetFile (fs : FS) (p : List String) : Option FileData :=
  alookup fs.files p

theorem mem_dirs_mkdirExistOk (fs : FS) (p q : List String) :
    q ∈ (mkdirExistOk fs p).dirs ↔ q = p ∨ q ∈ fs.dirs := by
  unfold mkdirExistOk
  by_cases h : p ∈ fs.dirs
  · rw [if_pos h]
    exact ⟨Or.inr, fun hq => hq.elim (fun e => e ▸ h) id⟩
  · rw [if_neg h]
    simp [List.mem_append, or_comm]

theorem jGetFile_writeFile (fs : FS) (p q : List String) (d : FileData) :
    jGetFile (writeFile fs p d) q = if p = q then some d else jGetFile fs q := by
  simp [jGetFile, writeFile, alookup_aset]

theorem jGetFile_mkdirExistOk (fs : FS) (p q : List String) :
    jGetFile (mkdirExistOk fs p) q = jGetFile fs q := by
  unfold mkdirExistOk jGetFile
  by_cases h : p ∈ fs.dirs <;> simp [h]

theorem dirs_writeFile (fs : FS) (p : List String) (d : FileData) :
    (writeFile fs p d).dirs = fs.dirs := rfl

namespace Main

/-- Model of `NCONotesWindow.new_notebook`, after the input dialog: for a non-empty name
(`if ok and name:`) create the notebook directory and its `pages` subdirectory
with `exist_ok=True`, then write `notebook.json` holding
`{"name": name, "pages": []}`.  No existence check is made, no error is raised,
no `images` directory, no default page entry and no page file are created. -/
def new_notebook (fs : FS) (name : String) : FS :=
  if name = "" then fs
  else
    let fs1 := mkdirExistOk fs [name]
    let fs2 := mkdirExistOk fs1 [name, "pages"]
    writeFile fs2 [name, "notebook.json"] (.meta ⟨name, []⟩)

/-- Model of `NCONotesWindow.new_page`, after the input dialog, with `nb` the selected
`current_notebook`: for a non-empty page display name, load `notebook.json`
(a missing or non-metadata file is a raised exception, modelled `none`), assign
`page_id = "page_" + str(len(metadata["pages"]) + 1)`, append the entry, write
the metadata back, and write the empty page file `{"items": []}`. -/
def new_page (fs : FS) (nb pname : String) : Option FS :=
  if pname = "" then some fs
  else
    match jGetFile fs [nb, "notebook.json"] with
    | some (.meta m) =>
        let page_id := "page_" ++ toString (m.pages.length + 1)
        let fs1 := writeFile fs [nb, "notebook.json"]
                     (.meta ⟨m.name, m.pages ++ [⟨page_id, pname⟩]⟩)
        let fs2 := writeFile fs1 [nb, "pages", page_id ++ ".json"] (.page ⟨[]⟩)
        some fs2
    | _ => none

/-- The per-record body of `NCONotesWindow.load_page_content`'s restore loop:
`item_data["type"]` is read (a missing key raises, modelled `none`); records of
type `"text"` are rebuilt via `ResizableTextEdit.from_dict` (a malformed one
raises, modelled `none`); every other record — image records included — is
silently skipped. -/
def loadItems : List (List (String × JValue)) → Option (List ResizableTextEdit)
  | [] => some []
  | r :: rs =>
      match alookup r "type" with
      | none => none
      | some t =>
          if t = .jstr "text" then
            match ResizableTextEdit.from_dict r, loadItems rs with
            | some w, some ws => some (w :: ws)
            | _, _ => none
          else
            loadItems rs

/-- Model of `NCONotesWindow.load_page_content`, with `nb` the selected notebook: clear
the canvas, and if the page file is absent leave it empty (`some []`); otherwise
parse it and restore the items.  A non-page JSON shape at the page path would
raise on field access, modelled `none`. -/
def load_page_content (fs : FS) (nb page_id : String) : Option (List ResizableTextEdit) :=
  match jGetFile fs [nb, "pages", page_id ++ ".json"] with
  | none => some []
  | some (.page pd) => loadItems pd.items
  | some (.meta _) => none

/-- An entry of `self.canvas.scene.items()` as inspected by
`NCONotesWindow.save_page`: a text editor, an image, or any other graphics item
(which the `isinstance` checks skip). -/
inductive SceneItem where
  | textItem (t : ResizableTextEdit)
  | imageItem (i : ResizableImage)
  | otherItem
deriving DecidableEq

/-- The item-collection loop of `NCONotesWindow.save_page`: serialize the text
editors and images in scene order, skipping anything else. -/
def collectItems : List SceneItem → List (List (String × JValue))
  | [] => []
  | .textItem t :: rest => t.to_dict :: collectItems rest
  | .imageItem i :: rest => i.to_dict :: collectItems rest
  | .otherItem :: rest => collectItems rest

/-- Model of `NCONotesWindow.save_page` with a notebook and page selected (the guard
returns early otherwise): collect the serialized items and write
`{"items": items}` to the page file. -/
def save_page (fs : FS) (nb page_id : String) (scene : List SceneItem) : FS :=
  writeFile fs [nb, "pages", page_id ++ ".json"] (.page ⟨collectItems scene⟩)

/-- The byte-level effect of `save_page`'s write on the page file:
`open(page_path, "w")` truncates the existing file immediately, and `json.dump`
then streams the encoding, so after `written` characters the file holds exactly
that prefix of the new encoding — the prior content is already gone. -/
def writeInPlace (prior : String) (encoded : String) (written : ℕ) : String :=
  let _ := prior
  String.mk (encoded.data.take written)

end Main

/-- C1: `from_dict` is the exact left-inverse of `to_dict` for `TextBoxData` and
for `ImageData`: every field (content, x, y, width, height; image_id, scale) is
restored unchanged by deserializing a serialized item. -/
theorem from_dict_to_dict_roundtrip (t : TextBoxData) (i : ImageData) :
    TextBoxData.from_dict (TextBoxData.to_dict t) = some t ∧
    ImageData.from_dict (ImageData.to_dict i) = some i :=
  ⟨rfl, rfl⟩

/-! ## Concrete states used by the remaining claims -/

/-- A 1×1 canvas image at position (3, 4) with scale 1 and RGBA bytes
`00 00 00 ff`. -/
def sampleImage : Main.ResizableImage := ⟨1, 1, [0, 0, 0, 255], 3, 4, 1⟩

/-- The empty notebooks root directory. -/
def emptyFS : FS := ⟨[], []⟩

/-- The state produced by creating notebook "Foo" in an empty root. -/
def fooFresh : FS := Main.new_notebook emptyFS "Foo"

/-- A serialized text record as written by a page save. -/
def textRec : List (String × JValue) :=
  [("type", .jstr "text"), ("x", .jfloat 1), ("y", .jfloat 2),
   ("width", .jfloat 300), ("height", .jfloat 200), ("content", .jstr "hello")]

/-- A serialized image record in the spec's schema, referencing `image_id`
"missing" for which no PNG exists anywhere in the tree. -/
def imageRecMissing : List (String × JValue) :=
  [("type", .jstr "image"), ("image_id", .jstr "missing"),
   ("x", .jfloat 0), ("y", .jfloat 0), ("scale", .jfloat 1),
   ("width", .jint 4), ("height", .jint 4)]

/-- Notebook "Foo" whose page `page_1` holds one text record and one image
record whose asset is missing; the tree has no `images` directory and no PNG. -/
def pageWithMissingImage : FS :=
  ⟨[["Foo"], ["Foo", "pages"]],
   [(["Foo", "notebook.json"], .meta ⟨"Foo", [⟨"page_1", "P"⟩]⟩),
    (["Foo", "pages", "page_1.json"], .page ⟨[textRec, imageRecMissing]⟩)]⟩

/-- An existing notebook "Foo" with one recorded page `page_1` and its content
file on disk. -/
def fsExistingFoo : FS :=
  ⟨[["Foo"], ["Foo", "pages"]],
   [(["Foo", "notebook.json"], .meta ⟨"Foo", [⟨"page_1", "A"⟩]⟩),
    (["Foo", "pages", "page_1.json"], .page ⟨[textRec]⟩)]⟩

/-- A notebook "Foo" already holding two pages, as produced by two `new_page`
calls on a fresh notebook. -/
def fsTwoPages : FS :=
  ⟨[["Foo"], ["Foo", "pages"]],
   [(["Foo", "notebook.json"], .meta ⟨"Foo", [⟨"page_1", "A"⟩, ⟨"page_2", "B"⟩]⟩),
    (["Foo", "pages", "page_1.json"], .page ⟨[]⟩),
    (["Foo", "pages", "page_2.json"], .page ⟨[]⟩)]⟩

/-- A text box created with explicit size 10 × 10. -/
def tinyTextBox : Widgets.ResizableTextEdit :=
  Widgets.ResizableTextEdit.create (0, 0) (some (10, 10))

/-- An `ImageData` constructed with `scale=0`. -/
def zeroScaleImage : ImageData := ⟨"img1", 0, 0, 0, 8, 8⟩

/-! ## C2 -/

/-- C2: the claim is wrong on the code (and the code contradicts its own note
"In production, save to file and store path instead"): the image record written
by a page save has keys `type, x, y, scale, width, height, data` — it carries
the raw pixel bytes hex-encoded inline under `data` and no `image_id` at all. -/
theorem image_record_inline_data_schema :
    (Main.ResizableImage.to_dict sampleImage).map Prod.fst =
      ["type", "x", "y", "scale", "width", "height", "data"] ∧
    alookup (Main.ResizableImage.to_dict sampleImage) "image_id" = none ∧
    alookup (Main.ResizableImage.to_dict sampleImage) "data" =
      some (.jstr "000000ff") := by
  decide

/-! ## C3 -/

/-- C3: counterexample — creating notebook "Foo" in an empty root yields no
`Foo/images` directory, metadata whose page list is empty rather than a single
default page `page_0` named "Foo", and no `page_0` item list file. -/
theorem new_notebook_no_default_page_cex :
    ["Foo", "images"] ∉ fooFresh.dirs ∧
    jGetFile fooFresh ["Foo", "notebook.json"] = some (.meta ⟨"Foo", []⟩) ∧
    NotebookMeta.mk "Foo" [] ≠ NotebookMeta.mk "Foo" [⟨"page_0", "Foo"⟩] ∧
    jGetFile fooFresh ["Foo", "pages", "page_0.json"] = none := by
  decide

/-- C3 (amended): for every non-empty name with no existing notebook directory,
`new_notebook` creates the directories `<name>/` and `<name>/pages/` and writes
metadata `{"name": name, "pages": []}` with an empty page list; it creates no
`<name>/images/` directory, no default page entry and no page item file (no file
other than the metadata is touched). -/
theorem new_notebook_fresh (fs : FS) (name : String)
    (_hfresh : [name] ∉ fs.dirs) (hn : name ≠ "") :
    [name] ∈ (Main.new_notebook fs name).dirs ∧
    [name, "pages"] ∈ (Main.new_notebook fs name).dirs ∧
    jGetFile (Main.new_notebook fs name) [name, "notebook.json"] =
      some (.meta ⟨name, []⟩) ∧
    ([name, "images"] ∈ (Main.new_notebook fs name).dirs ↔
      [name, "images"] ∈ fs.dirs) ∧
    ∀ p, p ≠ [name, "notebook.json"] →
      jGetFile (Main.new_notebook fs name) p = jGetFile fs p := by
  simp only [Main.new_notebook, if_neg hn]
  refine ⟨?_, ?_, ?_, ?_, ?_⟩
  · simp [writeFile, mem_dirs_mkdirExistOk]
  · simp [writeFile, mem_dirs_mkdirExistOk]
  · rw [jGetFile_writeFile, if_pos rfl]
  · simp [writeFile, mem_dirs_mkdirExistOk]
  · intro p hp
    rw [jGetFile_writeFile, if_neg fun e => hp e.symm,
      jGetFile_mkdirExistOk, jGetFile_mkdirExistOk]

/-- Witness for the amended C3 theorem at the concrete empty root and name
"Foo". -/
theorem new_notebook_fresh_witness :
    [("Foo" : String)] ∈ fooFresh.dirs ∧
    jGetFile fooFresh ["Foo", "notebook.json"] = some (.meta ⟨"Foo", []⟩) ∧
    jGetFile fooFresh ["Foo", "pages", "page_0.json"] =
      jGetFile emptyFS ["Foo", "pages", "page_0.json"] :=
  ⟨(new_notebook_fresh emptyFS "Foo" (by decide) (by decide)).1,
   (new_notebook_fresh emptyFS "Foo" (by decide) (by decide)).2.2.1,
   (new_notebook_fresh emptyFS "Foo" (by decide) (by decide)).2.2.2.2 _ (by decide)⟩

/-! ## C4 -/

/-- C4: the claim is right and the code wrong (its own comment reads "Image
restoration would go here (skipped for brevity)"): on page load no asset path is
ever resolved and no `AssetMissingError` is signalled — every record with
type "image" is dropped silently, whether or not its PNG exists.  Loading the
page holding one text record and one image record with `image_id` "missing"
yields just the text item, with no error and no recorded warning. -/
theorem load_page_drops_image_records :
    Main.load_page_content pageWithMissingImage "Foo" "page_1" =
      some [⟨1, 2, 306, 206, "hello"⟩] := by
  decide

/-! ## C5 -/

/-- C5: `new_page` assigns the sequential id `page_<n+1>` where `n` is the
notebook's current page count (the length of the metadata page list — a fresh
notebook starts with zero recorded pages, so successive calls yield `page_1`,
`page_2`, `page_3`), appends the entry to the metadata, and writes an empty
item list file for the new page. -/
theorem new_page_sequential_ids (fs : FS) (nb pname : String) (m : NotebookMeta)
    (hp : pname ≠ "") (h : jGetFile fs [nb, "notebook.json"] = some (.meta m)) :
    ∃ fs2, Main.new_page fs nb pname = some fs2 ∧
      jGetFile fs2 [nb, "notebook.json"] =
        some (.meta ⟨m.name,
          m.pages ++ [⟨"page_" ++ toString (m.pages.length + 1), pname⟩]⟩) ∧
      jGetFile fs2 [nb, "pages", ("page_" ++ toString (m.pages.length + 1)) ++ ".json"] =
        some (.page ⟨[]⟩) := by
  have hstep : Main.new_page fs nb pname =
      some (writeFile
        (writeFile fs [nb, "notebook.json"]
          (.meta ⟨m.name,
            m.pages ++ [⟨"page_" ++ toString (m.pages.length + 1), pname⟩]⟩))
        [nb, "pages", ("page_" ++ toString (m.pages.length + 1)) ++ ".json"]
        (.page ⟨[]⟩)) := by
    simp only [Main.new_page, if_neg hp, h]
  refine ⟨_, hstep, ?_, ?_⟩
  · rw [jGetFile_writeFile, if_neg ?_, jGetFile_writeFile, if_pos rfl]
    intro e
    exact absurd (congrArg List.length e) (by simp)
  · rw [jGetFile_writeFile, if_pos rfl]

/-- Witness for C5: applied to the notebook already holding `page_1` and
`page_2`, the next id is `page_3`; and the full three-call chain on a fresh
notebook records exactly `page_1`, `page_2`, `page_3`. -/
theorem new_page_sequential_ids_witness :
    (∃ fs2, Main.new_page fsTwoPages "Foo" "C" = some fs2 ∧
       jGetFile fs2 ["Foo", "notebook.json"] =
         some (.meta ⟨"Foo", [⟨"page_1", "A"⟩, ⟨"page_2", "B"⟩, ⟨"page_3", "C"⟩]⟩) ∧
       jGetFile fs2 ["Foo", "pages", "page_3.json"] = some (.page ⟨[]⟩)) ∧
    Option.map (fun a => jGetFile a ["Foo", "notebook.json"])
        (((Main.new_page (Main.new_notebook emptyFS "Foo") "Foo" "A").bind
            fun a => Main.new_page a "Foo" "B").bind
          fun b => Main.new_page b "Foo" "C") =
      some (some (.meta ⟨"Foo", [⟨"page_1", "A"⟩, ⟨"page_2", "B"⟩, ⟨"page_3", "C"⟩]⟩)) := by
  constructor
  · exact new_page_sequential_ids fsTwoPages "Foo" "C"
      ⟨"Foo", [⟨"page_1", "A"⟩, ⟨"page_2", "B"⟩]⟩ (by decide) (by decide)
  · decide

/-! ## C6 -/

/-- C6: counterexample — a text item created with explicit size 10 × 10 is
serialized with width 10 and height 10, below the claimed floors of 100 and 50:
only the drag-resize path clamps, creation does not. -/
theorem text_min_size_creation_cex :
    alookup tinyTextBox.to_dict "width" = some (.jfloat 10) ∧
    alookup tinyTextBox.to_dict "height" = some (.jfloat 10) ∧
    ¬ ((100 : ℚ) ≤ 10) ∧ ¬ ((50 : ℚ) ≤ 10) := by
  decide

/-- C6 (amended): the drag-resize operation clamps to the floors — every resize
stores width ≥ 100 and height ≥ 50, and a resize taking the default 300 × 200
box toward 10 × 10 stores exactly 100 × 50; but a text item created (or
deserialized) with an explicit size below the floors keeps that size. -/
theorem text_resize_clamped :
    (∀ (w : Widgets.ResizableTextEdit) (d : ℚ × ℚ),
        100 ≤ (w.resizeBy d).width ∧ 50 ≤ (w.resizeBy d).height) ∧
    ((Widgets.ResizableTextEdit.create (0, 0) none).resizeBy (-290, -190)).width = 100 ∧
    ((Widgets.ResizableTextEdit.create (0, 0) none).resizeBy (-290, -190)).height = 50 := by
  refine ⟨fun w d => ⟨?_, ?_⟩, ?_, ?_⟩
  · exact le_pytrunc_of_le (by norm_num) (le_max_left _ _)
  · exact le_pytrunc_of_le (by norm_num) (le_max_left _ _)
  · show pytrunc (max 100 (((300 : ℤ) : ℚ) + -290)) = 100
    rw [show ((300 : ℤ) : ℚ) + -290 = 10 by norm_num,
      max_eq_left (by norm_num : (10 : ℚ) ≤ 100), pytrunc,
      if_pos (by norm_num : (0 : ℚ) ≤ 100)]
    norm_num
  · show pytrunc (max 50 (((200 : ℤ) : ℚ) + -190)) = 50
    rw [show ((200 : ℤ) : ℚ) + -190 = 10 by norm_num,
      max_eq_left (by norm_num : (10 : ℚ) ≤ 50), pytrunc,
      if_pos (by norm_num : (0 : ℚ) ≤ 50)]
    norm_num

/-! ## C7 -/

/-- C7: counterexample — an `ImageData` constructed with `scale=0` stores scale
0 in its record (not the clamped 0.1, and not strictly positive), and the value
round-trips unchanged through deserialization: only the drag-resize path
clamps. -/
theorem image_scale_unclamped_cex :
    alookup zeroScaleImage.to_dict "scale" = some (.jfloat 0) ∧
    ImageData.from_dict zeroScaleImage.to_dict = some zeroScaleImage ∧
    ¬ ((0 : ℚ) < 0) ∧ (0 : ℚ) ≠ 1 / 10 :=
  ⟨rfl, rfl, by norm_num, by norm_num⟩

/-- C7 (amended): the drag-resize operation keeps a canvas image's scale at or
above the 0.1 floor — any resize produces a scale ≥ 0.1, a drag whose computed
scale is 0 or negative stores exactly 0.1, and any sequence of resizes from a
scale ≥ 0.1 (the constructor starts at 1.0) stays ≥ 0.1; `ImageData`
construction and deserialization perform no such clamping. -/
theorem image_resize_scale_floor (s dx dy : ℚ) (ds : List (ℚ × ℚ)) :
    1 / 10 ≤ Main.clampedScale s dx dy ∧
    (s * (1 + (dx + dy) / 200) ≤ 0 → Main.clampedScale s dx dy = 1 / 10) ∧
    (1 / 10 ≤ s → 1 / 10 ≤ Main.applyResizes s ds) := by
  refine ⟨le_max_left _ _, fun h => max_eq_left (le_trans h (by norm_num)), fun hs => ?_⟩
  unfold Main.applyResizes
  induction ds generalizing s with
  | nil => exact hs
  | cons d rest ih => exact ih _ (le_max_left _ _)

/-- Witness for the amended C7 theorem: a drag whose computed scale is exactly 0
stores 0.1, and a resize sequence from the initial scale 1.0 stays at or above
0.1. -/
theorem image_resize_scale_floor_witness :
    Main.clampedScale 1 (-100) (-100) = 1 / 10 ∧
    1 / 10 ≤ Main.applyResizes 1 [((-100 : ℚ), (-100 : ℚ))] :=
  ⟨(image_resize_scale_floor 1 (-100) (-100) []).2.1 (by norm_num),
   (image_resize_scale_floor 1 (-100) (-100) [((-100 : ℚ), (-100 : ℚ))]).2.2 (by norm_num)⟩

/-! ## C8 -/

/-- C8: counterexample — with the directory for "Foo" already present (holding a
recorded page), `new_notebook` raises no error of any kind and does not leave
the existing notebook unchanged: the metadata is rewritten from a one-page list
to the empty list. -/
theorem duplicate_notebook_no_error_cex :
    jGetFile (Main.new_notebook fsExistingFoo "Foo") ["Foo", "notebook.json"] =
      some (.meta ⟨"Foo", []⟩) ∧
    jGetFile fsExistingFoo ["Foo", "notebook.json"] =
      some (.meta ⟨"Foo", [⟨"page_1", "A"⟩]⟩) ∧
    FileData.meta ⟨"Foo", []⟩ ≠ FileData.meta ⟨"Foo", [⟨"page_1", "A"⟩]⟩ := by
  decide

/-- C8 (amended): `new_notebook` with an already existing directory name does
not fail — the `mkdir` calls pass `exist_ok=True`, every existing directory is
kept, and `notebook.json` is unconditionally rewritten to
`{"name": name, "pages": []}`. -/
theorem new_notebook_existing_overwrites_meta (fs : FS) (name : String)
    (_h : [name] ∈ fs.dirs) (hn : name ≠ "") :
    jGetFile (Main.new_notebook fs name) [name, "notebook.json"] =
      some (.meta ⟨name, []⟩) ∧
    ∀ d, d ∈ fs.dirs → d ∈ (Main.new_notebook fs name).dirs := by
  simp only [Main.new_notebook, if_neg hn]
  constructor
  · rw [jGetFile_writeFile, if_pos rfl]
  · intro d hd
    simp [writeFile, mem_dirs_mkdirExistOk, hd]

/-- Witness for the amended C8 theorem at the concrete existing notebook
"Foo". -/
theorem new_notebook_existing_overwrites_meta_witness :
    jGetFile (Main.new_notebook fsExistingFoo "Foo") ["Foo", "notebook.json"] =
      some (.meta ⟨"Foo", []⟩) ∧
    ["Foo", "pages"] ∈ (Main.new_notebook fsExistingFoo "Foo").dirs :=
  ⟨(new_notebook_existing_overwrites_meta fsExistingFoo "Foo" (by decide) (by decide)).1,
   (new_notebook_existing_overwrites_meta fsExistingFoo "Foo" (by decide) (by decide)).2
     _ (by decide)⟩

/-! ## C9 -/

/-- C9: counterexample — `save_page` opens the page file with mode "w"
(truncating in place) and streams the JSON, so an error after three characters
of a seven-character encoding leaves the file holding "NEW": a partially
written page file, neither the prior content "OLDPAGE" nor the complete
encoding "NEWPAGE". -/
theorem save_page_partial_write_cex :
    Main.writeInPlace "OLDPAGE" "NEWPAGE" 3 = "NEW" ∧
    Main.writeInPlace "OLDPAGE" "NEWPAGE" 3 ≠ "OLDPAGE" ∧
    Main.writeInPlace "OLDPAGE" "NEWPAGE" 3 ≠ "NEWPAGE" := by
  decide

/-- C9 (amended): a completed `save_page` leaves the page file holding exactly
the encoded current item set and touches no other file; but the write is
in place (truncating open, no write-new-then-rename), so an error mid-write
leaves a partial prefix of the new encoding rather than the prior version. -/
theorem save_page_rewrites_page_file (fs : FS) (nb pid : String)
    (scene : List Main.SceneItem) :
    jGetFile (Main.save_page fs nb pid scene) [nb, "pages", pid ++ ".json"] =
      some (.page ⟨Main.collectItems scene⟩) ∧
    ∀ p, p ≠ [nb, "pages", pid ++ ".json"] →
      jGetFile (Main.save_page fs nb pid scene) p = jGetFile fs p := by
  constructor
  · rw [Main.save_page, jGetFile_writeFile, if_pos rfl]
  · intro p hp
    rw [Main.save_page, jGetFile_writeFile, if_neg fun e => hp e.symm]

/-- Witness for the amended C9 theorem: saving one text item over the existing
page file replaces its content exactly and leaves the metadata file alone. -/
theorem save_page_rewrites_page_file_witness :
    jGetFile (Main.save_page fsExistingFoo "Foo" "page_1"
        [.textItem ⟨1, 2, 306, 206, "hello"⟩])
      ["Foo", "pages", "page_1.json"] =
      some (.page ⟨[Main.ResizableTextEdit.to_dict ⟨1, 2, 306, 206, "hello"⟩]⟩) ∧
    jGetFile (Main.save_page fsExistingFoo "Foo" "page_1"
        [.textItem ⟨1, 2, 306, 206, "hello"⟩])
      ["Foo", "notebook.json"] = jGetFile fsExistingFoo ["Foo", "notebook.json"] :=
  ⟨(save_page_rewrites_page_file fsExistingFoo "Foo" "page_1"
      [.textItem ⟨1, 2, 306, 206, "hello"⟩]).1,
   (save_page_rewrites_page_file fsExistingFoo "Foo" "page_1"
      [.textItem ⟨1, 2, 306, 206, "hello"⟩]).2 _ (by decide)⟩

/-! ## C10 -/

/-- C10: calling `new_notebook` with the name of an already existing notebook
does not fail (the operation is total: `mkdir` passes `exist_ok=True` and no
existence check is made); it silently rewrites that notebook's `notebook.json`
to `{"name": name, "pages": []}`, discarding the previously recorded page list,
while every other file — in particular the page content files under
`<name>/pages/` — is left in place. -/
theorem new_notebook_existing_resets_pages (fs : FS) (name : String)
    (_h : [name] ∈ fs.dirs) (hn : name ≠ "") :
    jGetFile (Main.new_notebook fs name) [name, "notebook.json"] =
      some (.meta ⟨name, []⟩) ∧
    ∀ p, p ≠ [name, "notebook.json"] →
      jGetFile (Main.new_notebook fs name) p = jGetFile fs p := by
  simp only [Main.new_notebook, if_neg hn]
  constructor
  · rw [jGetFile_writeFile, if_pos rfl]
  · intro p hp
    rw [jGetFile_writeFile, if_neg fun e => hp e.symm,
      jGetFile_mkdirExistOk, jGetFile_mkdirExistOk]

/-- Witness for C10 at the concrete existing notebook "Foo": the metadata is
reset and the page content file `page_1.json` is untouched. -/
theorem new_notebook_existing_resets_pages_witness :
    jGetFile (Main.new_notebook fsExistingFoo "Foo") ["Foo", "notebook.json"] =
      some (.meta ⟨"Foo", []⟩) ∧
    jGetFile (Main.new_notebook fsExistingFoo "Foo") ["Foo", "pages", "page_1.json"] =
      jGetFile fsExistingFoo ["Foo", "pages", "page_1.json"] :=
  ⟨(new_notebook_existing_resets_pages fsExistingFoo "Foo" (by decide) (by decide)).1,
   (new_notebook_existing_resets_pages fsExistingFoo "Foo" (by decide) (by decide)).2
     _ (by decide)⟩

end NCONotes
